import Mathlib

/-!
Verification of the igprovd provisioning orchestrator (src/igprovd) against
its natural-language specification.

The development shallowly embeds the Python sources:
  * `provsvc.py`  — ProvThread (Worker), ProvService (Engine), escrow scheduler
  * `edge_iq.py`  — EdgeIQConfig URL routing and company-id parsing
  * `ggconfig.py` — GGConfig.start_core_download control flow

External effects (HTTP requests, subprocesses, D-Bus calls, the GLib main
loop) are modelled as oracles: each external call site takes its outcome as
an explicit input, so the embedded functions are total and executable.
Logging via syslog is modelled only where a claim mentions it.
-/

/-- Provisioning status codes, from the module-level constants of
`provsvc.py` (PROV_COMPLETE_SUCCESS .. PROV_FAILED_UNKNOWN). -/
inductive ProvStatus
  | CompleteSuccess
  | Unprovisioned
  | InProgressDownloading
  | InProgressApplying
  | FailedInvalid
  | FailedConnect
  | FailedAuth
  | FailedTimeout
  | FailedNotFound
  | FailedBadConfig
  | FailedUnknown
deriving DecidableEq, Repr

/-- The wire values of the status constants in `provsvc.py` lines 30-40. -/
def ProvStatus.code : ProvStatus → Int
  | .CompleteSuccess => 0
  | .Unprovisioned => 1
  | .InProgressDownloading => 2
  | .InProgressApplying => 3
  | .FailedInvalid => -1
  | .FailedConnect => -2
  | .FailedAuth => -3
  | .FailedTimeout => -4
  | .FailedNotFound => -5
  | .FailedBadConfig => -6
  | .FailedUnknown => -7

/-- Python exceptions that can cross the backend-call boundary into
`ProvThread.run`'s handlers.  `connectionError`, `timeout` and
`httpError` model the `requests` library exceptions; `provBadConfig` and
`provInvalid` model the two exception classes imported from the (not
shipped) `prov_exceptions` module, whose use in `provsvc.py`, `edge_iq.py`
and `ggconfig.py` shows they are plain `Exception` subclasses;
`nameError`, `attributeError`, `keyError`, `runtimeError` and `other`
model the corresponding built-in Python exceptions. -/
inductive PyExc
  | connectionError
  | timeout
  | httpError (status : Nat)
  | provBadConfig
  | provInvalid
  | nameError (n : String)
  | attributeError (n : String)
  | keyError (k : String)
  | valueError (msg : String)
  | runtimeError (msg : String)
  | other (msg : String)
deriving DecidableEq, Repr

deriving instance DecidableEq for Except

/-- `requests.codes.UNAUTHORIZED` -/
def UNAUTHORIZED : Nat := 401
/-- `requests.codes.FORBIDDEN` -/
def FORBIDDEN : Nat := 403
/-- `requests.codes.NOT_FOUND` -/
def NOT_FOUND : Nat := 404

/-- The `except` ladder of `ProvThread.run` (`provsvc.py` lines 89-118):
maps the first exception raised by the selected phases to the stored
result code.  The final `except Exception` clause makes every remaining
exception map to `PROV_FAILED_UNKNOWN`. -/
def classify : PyExc → ProvStatus
  | .connectionError => .FailedConnect
  | .timeout => .FailedTimeout
  | .httpError s =>
      if s = UNAUTHORIZED ∨ s = FORBIDDEN then .FailedAuth
      else if s = NOT_FOUND then .FailedNotFound
      else .FailedUnknown
  | .provBadConfig => .FailedBadConfig
  | .provInvalid => .FailedInvalid
  | .nameError _ => .FailedUnknown
  | .attributeError _ => .FailedUnknown
  | .keyError _ => .FailedUnknown
  | .valueError _ => .FailedUnknown
  | .runtimeError _ => .FailedUnknown
  | .other _ => .FailedUnknown

/-- Observable events of one `ProvThread.run` execution, in program order:
entry into a backend phase, and the invocation of the completion
callback with the terminal status. -/
inductive RunEvent
  | downloadPhase
  | applyPhase
  | callbackInvoked (s : ProvStatus)
deriving DecidableEq, Repr

/-- Whether a run event is the completion-callback invocation. -/
def RunEvent.isCallback : RunEvent → Bool
  | .callbackInvoked _ => true
  | _ => false

/-- Outcome of one `ProvThread.run` execution. -/
structure RunOutcome where
  /-- the value of `self.result` passed to `self._callback` -/
  result : ProvStatus
  /-- whether `self.gg_config.perform_core_update()` was entered -/
  applyInvoked : Bool
  /-- ordered trace of phase entries and callback invocations -/
  trace : List RunEvent
  /-- an exception escaping `run` past the `except` ladder, if any -/
  escaped : Option PyExc
deriving DecidableEq, Repr

/-- `ProvThread.run` (`provsvc.py` lines 82-119).  `download` and `apply`
are the constructor flags; `dl` and `ap` are the outcomes of
`start_core_download()` and `perform_core_update()` on this
run (`Except.error e` meaning the call raised `e`).  The body runs the
selected phases in order inside one `try`, the first raise skips the
rest, the handlers store a status code, and the callback is invoked once
at the end with `self.result` (initialised to `PROV_COMPLETE_SUCCESS`). -/
def provThreadRun (download apply : Bool) (dl ap : Except PyExc Unit) :
    RunOutcome :=
  let dlEvents : List RunEvent := if download then [.downloadPhase] else []
  match (if download then dl else .ok ()) with
  | .error e =>
      { result := classify e
        applyInvoked := false
        trace := dlEvents ++ [.callbackInvoked (classify e)]
        escaped := none }
  | .ok _ =>
      let apEvents : List RunEvent := if apply then [.applyPhase] else []
      match (if apply then ap else .ok ()) with
      | .error e =>
          { result := classify e
            applyInvoked := apply
            trace := dlEvents ++ apEvents ++ [.callbackInvoked (classify e)]
            escaped := none }
      | .ok _ =>
          { result := .CompleteSuccess
            applyInvoked := apply
            trace := dlEvents ++ apEvents
                       ++ [.callbackInvoked .CompleteSuccess]
            escaped := none }

/-- The two execution contexts of the process: the GLib main loop that
serves all D-Bus calls, signals and timers (the control plane), and a
`threading.Thread` started by a `ProvThread` (a Worker). -/
inductive ExecContext
  | mainLoop
  | workerThread
deriving DecidableEq, Repr

/-- Which callable a `ProvThread` creation site passes as `callback`.
`stateChangedDirect` is `self.StateChanged` (a bound D-Bus signal method
mutating `self.result` and both provisioned flags); `updateStateMarshalled`
is `self.update_state`, which defers via `gobject.timeout_add(0,
self.handle_update, new_state)` (`provsvc.py` lines 304-310). -/
inductive CallbackKind
  | stateChangedDirect
  | updateStateMarshalled
deriving DecidableEq, Repr

/-- The execution context on which the Engine's shared state is mutated
when the given callback is invoked from context `c`: a direct call to
`StateChanged` runs in place; `update_state` schedules `handle_update`
(hence `StateChanged`) onto the GLib main loop. -/
def callbackRunContext : CallbackKind → ExecContext → ExecContext
  | .stateChangedDirect, c => c
  | .updateStateMarshalled, _ => .mainLoop

/-- The two provisioning backends owned by the Engine. -/
inductive Backend
  | core
  | edge
deriving DecidableEq, Repr

/-- The arguments of one `ProvThread(...)` creation: the backend config
object, the completion callback, and the `download`/`apply` flags
(defaulting to `true` in `ProvThread.__init__`). -/
structure WorkerCfg where
  backend : Backend
  download : Bool
  apply : Bool
  callback : CallbackKind
deriving DecidableEq, Repr

/-- Outcome of one `check_config()` call: `Except.ok b` when the check
returns `b`, `Except.error ()` when it raises. -/
abbrev CheckOutcome := Except Unit Bool

/-- Outcomes of the two `check_config()` calls performed by one
`StateChanged` execution. -/
structure World where
  ggCheck : CheckOutcome
  edgeCheck : CheckOutcome
deriving Repr

/-- The per-backend `try/except` around `check_config()` in `StateChanged`
(`provsvc.py` lines 260-282): a normal result is stored as-is, a raise is
caught and the flag set to `False`. -/
def flagOfCheck : CheckOutcome → Bool
  | .ok b => b
  | .error _ => false

/-- The syslog lines of the Greengrass re-check block of `StateChanged`
(exception text elided). -/
def stateChangedLogGG : CheckOutcome → List String
  | .ok true => ["Greengrass is provisioned."]
  | .ok false => ["Greengrass is not provisioned."]
  | .error _ => ["Greengrass configuration check failed with exception"]

/-- The syslog lines of the Edge IQ re-check block of `StateChanged`
(exception text elided). -/
def stateChangedLogEdge : CheckOutcome → List String
  | .ok true => ["Edge IQ is provisioned."]
  | .ok false => ["Edge IQ is not provisioned."]
  | .error _ => ["Edge IQ configuration check failed with exception"]

/-- Engine state: the fields of `ProvService` touched by the embedded
operations, plus the backend parameter fields the Engine writes
(`gg_config.*` and `edge_iq_config.company_id`). -/
structure EngineState where
  result : ProvStatus
  greengrass_provisioned : Bool
  edge_iq_provisioned : Bool
  edge_company_id : Option String
  gg_endpoint_url : Option String
  gg_clientcert : Option String
  gg_username : Option String
  gg_password : Option String
deriving DecidableEq, Repr

/-- `ProvService.StateChanged` (`provsvc.py` lines 253-284): stores the
new result, then re-queries both backends' `check_config()` and stores the
fresh flags, treating a raise as not provisioned.  The function always
returns normally.  Being a `dbus.service.signal`, each call additionally
emits exactly one status-changed broadcast carrying `r`. -/
def StateChanged (w : World) (st : EngineState) (r : ProvStatus) :
    EngineState :=
  { st with
    result := r
    greengrass_provisioned := flagOfCheck w.ggCheck
    edge_iq_provisioned := flagOfCheck w.edgeCheck }

/-- The broadcasts emitted by one `StateChanged` call: the
`dbus.service.signal` decorator emits the signal once per call with the
call's argument. -/
def stateChangedBroadcasts (r : ProvStatus) : List ProvStatus := [r]

/-- The `auth_params` dictionary entries read by `StartProvisioning` and
`StartCoreDownload` (`.get` returns `None` for a missing key). -/
structure AuthParams where
  clientcert : Option String
  username : Option String
  password : Option String
deriving DecidableEq, Repr

/-- Result of one synchronous Engine method call: the state after the
call, the status-changed broadcasts emitted during it, the `ProvThread`
created by it (if any), and the method's return value (`self.result`). -/
structure CallResult where
  state : EngineState
  broadcasts : List ProvStatus
  workerStarted : Bool
  workerCfg : Option WorkerCfg
  ret : ProvStatus
deriving DecidableEq, Repr

/-- Python `url.split("/")` for the single-character separator `/`:
splits at every occurrence, keeping empty pieces, and never returns an
empty list.  (Implemented over the character list so that the kernel can
evaluate it on literals; `String.splitOn` agrees but does not reduce.) -/
def pySplitSlash (s : String) : List String :=
  (s.toList.foldr
    (fun c acc =>
      if c = '/' then [] :: acc
      else
        match acc with
        | h :: t => (c :: h) :: t
        | [] => [[c]])
    [[]]).map String.mk

/-- Python `str.lower()` (character-wise, as for the ASCII hardware
addresses it is applied to). -/
def pyLower (s : String) : String := String.mk (s.toList.map Char.toLower)

/-- Python `str.replace(":", "")`: remove every colon. -/
def removeColons (s : String) : String :=
  String.mk (s.toList.filter (fun c => c ≠ ':'))

/-- `EDGE_DOMAIN` from `edge_iq.py`. -/
def EDGE_DOMAIN : String := "http://api.edgeiq.io/"

/-- `EdgeIQConfig.has_edge_domain` (`edge_iq.py` lines 211-215): the
Python substring test `EDGE_DOMAIN in url`. -/
def has_edge_domain (url : String) : Bool :=
  decide (EDGE_DOMAIN.toList <:+: url.toList)

/-- `EdgeIQConfig.set_company_id_from_url` (`edge_iq.py` lines 201-206):
split the URL on `/`; fewer than four components raises `ProvBadConfig`,
otherwise `self.company_id` is set to the last component
(`url_config[-1]`). -/
def set_company_id_from_url (url : String) : Except PyExc String :=
  let url_config := pySplitSlash url
  if url_config.length < 4 then .error .provBadConfig
  else .ok (url_config.getLastD "")

/-- The edge-backend branch of `ProvService.StartProvisioning`
(`provsvc.py` lines 179-186), together with the surrounding
`try/except Exception` handler (lines 201-203) and the final
`return self.result` (line 205): if already provisioned, store
`PROV_FAILED_INVALID` with no broadcast and no Worker; else parse the
company id (a `ProvBadConfig` raise is caught by the handler, which
publishes `StateChanged(PROV_FAILED_INVALID)`); on success publish
`StateChanged(PROV_INPROGRESS_DOWNLOADING)` and create
`ProvThread(self.edge_iq_config, self.StateChanged)`. -/
def startProvisioningEdgeBranch (w : World) (st : EngineState)
    (endpoint_url : String) : CallResult :=
  if st.edge_iq_provisioned then
    { state := { st with result := .FailedInvalid }
      broadcasts := []
      workerStarted := false
      workerCfg := none
      ret := .FailedInvalid }
  else
    match set_company_id_from_url endpoint_url with
    | .error _ =>
        let st2 := StateChanged w st .FailedInvalid
        { state := st2
          broadcasts := stateChangedBroadcasts .FailedInvalid
          workerStarted := false
          workerCfg := none
          ret := st2.result }
    | .ok cid =>
        let st1 := { st with edge_company_id := some cid }
        let st2 := StateChanged w st1 .InProgressDownloading
        { state := st2
          broadcasts := stateChangedBroadcasts .InProgressDownloading
          workerStarted := true
          workerCfg := some ⟨.edge, true, true, .stateChangedDirect⟩
          ret := st2.result }

/-- The Greengrass branch of `ProvService.StartProvisioning`
(`provsvc.py` lines 187-199) with the final `return self.result`: if
already provisioned, store `PROV_FAILED_INVALID` with no broadcast and no
Worker; else store the endpoint and credentials, publish
`StateChanged(PROV_INPROGRESS_DOWNLOADING)` and create
`ProvThread(self.gg_config, self.StateChanged)`. -/
def startProvisioningGGBranch (w : World) (st : EngineState)
    (endpoint_url : String) (auth_params : AuthParams) : CallResult :=
  if st.greengrass_provisioned then
    { state := { st with result := .FailedInvalid }
      broadcasts := []
      workerStarted := false
      workerCfg := none
      ret := .FailedInvalid }
  else
    let st1 := { st with
      gg_endpoint_url := some endpoint_url
      gg_clientcert := auth_params.clientcert
      gg_username := auth_params.username
      gg_password := auth_params.password }
    let st2 := StateChanged w st1 .InProgressDownloading
    { state := st2
      broadcasts := stateChangedBroadcasts .InProgressDownloading
      workerStarted := true
      workerCfg := some ⟨.core, true, true, .stateChangedDirect⟩
      ret := st2.result }

/-- `ProvService.StartProvisioning` (`provsvc.py` lines 169-205): route on
`has_edge_domain(endpoint_url)` and run the corresponding branch. -/
def StartProvisioning (w : World) (st : EngineState) (endpoint_url : String)
    (auth_params : AuthParams) : CallResult :=
  if has_edge_domain endpoint_url then
    startProvisioningEdgeBranch w st endpoint_url
  else
    startProvisioningGGBranch w st endpoint_url auth_params

/-- `ProvService.StartCoreDownload` (`provsvc.py` lines 207-226): store
the endpoint and credentials, publish `StateChanged(DOWNLOADING)`, and
create `ProvThread(self.gg_config, self.StateChanged, apply=False)`. -/
def StartCoreDownload (w : World) (st : EngineState) (endpoint_url : String)
    (auth_params : AuthParams) : CallResult :=
  let st1 := { st with
    gg_endpoint_url := some endpoint_url
    gg_clientcert := auth_params.clientcert
    gg_username := auth_params.username
    gg_password := auth_params.password }
  let st2 := StateChanged w st1 .InProgressDownloading
  { state := st2
    broadcasts := stateChangedBroadcasts .InProgressDownloading
    workerStarted := true
    workerCfg := some ⟨.core, true, false, .stateChangedDirect⟩
    ret := st2.result }

/-- `ProvService.PerformCoreUpdate` (`provsvc.py` lines 228-239): publish
`StateChanged(DOWNLOADING)` and create
`ProvThread(self.gg_config, self.StateChanged, download=False)`. -/
def PerformCoreUpdate (w : World) (st : EngineState) : CallResult :=
  let st2 := StateChanged w st .InProgressDownloading
  { state := st2
    broadcasts := stateChangedBroadcasts .InProgressDownloading
    workerStarted := true
    workerCfg := some ⟨.core, false, true, .stateChangedDirect⟩
    ret := st2.result }

/-- `NM_CONNECTIVITY_FULL` from `provsvc.py`. -/
def NM_CONNECTIVITY_FULL : Nat := 4

/-- Instance attributes bound on a `ProvService` object by `__init__` and
by the methods of `provsvc.py`.  Python attribute access on names outside
this list raises `AttributeError`; in particular there is no attribute
named `self`. -/
def provServiceAttrs : List String :=
  ["gg_config", "edge_iq_config", "greengrass_provisioned",
   "edge_iq_provisioned", "bus", "nm", "nm_props", "nm_connectivity",
   "escrow_timer", "escrow_prefix", "auto_install_min_sec",
   "auto_install_max_sec", "result", "company_id"]

/-- Escrow-scheduler state: the `ProvService` fields the escrow path
touches.  `escrow_prefix_str` embeds the source field `escrow_prefix`;
`company_id` is `none` when the attribute `self.company_id` is unbound
(it is only assigned by `check_escrow_install`, after the thresholds, so
a configuration file lacking the `company_id` key leaves it unbound);
`pendingTimers` models the set of outstanding GLib timeout sources (most
recently added first), while `escrow_timer` is the single stored source
id (`self.escrow_timer`). -/
structure EscrowState where
  nm_connectivity : Nat
  auto_install_min_sec : Nat
  auto_install_max_sec : Nat
  escrow_prefix_str : String
  company_id : Option String
  escrow_timer : Option Nat
  pendingTimers : List Nat
  edge_company_id : Option String
  edge_escrow_token : Option String
deriving DecidableEq, Repr

/-- `ProvService.schedule_escrow_install` (`provsvc.py` lines 354-365).
First `random.randrange(auto_install_min_sec, auto_install_max_sec)`
draws the delay: it raises `ValueError` when the range is empty
(`auto_install_max_sec ≤ auto_install_min_sec`); the drawn value itself
does not affect the stored state.  Then the syslog call formats
`self.company_id`, raising `AttributeError` when that attribute is
unbound.  Only if neither raises is a one-shot timer registered via
`gobject.timeout_add`, whose returned source id `fresh` is stored in
`self.escrow_timer`; on a raise, nothing is registered, the stored
handle is untouched, and the exception propagates to the caller. -/
def schedule_escrow_install (fresh : Nat) (st : EscrowState) :
    EscrowState × Option PyExc :=
  if st.auto_install_max_sec ≤ st.auto_install_min_sec then
    (st, some (.valueError "empty range for randrange"))
  else
    match st.company_id with
    | none => (st, some (.attributeError "company_id"))
    | some _ =>
        ({ st with
            escrow_timer := some fresh
            pendingTimers := fresh :: st.pendingTimers }, none)

/-- `gobject.source_remove t`: deregister the GLib source with id `t`. -/
def source_remove (pend : List Nat) (t : Nat) : List Nat := pend.erase t

/-- `ProvService.nm_props_changed` (`provsvc.py` lines 312-327).
`connectivityChange` is `some c` when `props_changed` is non-empty and
holds the key `Connectivity` with value `c`, else `none`.  On full
connectivity with armed thresholds it calls `schedule_escrow_install`
(unconditionally; a raise from there escapes the signal handler, second
component); on non-full connectivity with a stored timer id it calls
`gobject.source_remove` on that id (without clearing
`self.escrow_timer`). -/
def nm_props_changed (fresh : Nat) (st : EscrowState)
    (connectivityChange : Option Nat) : EscrowState × Option PyExc :=
  match connectivityChange with
  | none => (st, none)
  | some c =>
    let st1 := { st with nm_connectivity := c }
    if c = NM_CONNECTIVITY_FULL ∧ 0 < st1.auto_install_min_sec then
      schedule_escrow_install fresh st1
    else if c ≠ NM_CONNECTIVITY_FULL ∧ st1.escrow_timer.isSome then
      ({ st1 with
        pendingTimers := source_remove st1.pendingTimers
          (st1.escrow_timer.getD 0) }, none)
    else (st1, none)

/-- `ProvService.get_eth0_addr` (`provsvc.py` lines 329-336): reads the
`PermHwAddress` property of the eth0 device over D-Bus and lowercases it;
the raw property value is an oracle input. -/
def get_eth0_addr (permHwAddress : String) : String :=
  pyLower permHwAddress

/-- Result of one firing of the escrow timer callback
(`start_escrow_install`). -/
structure EscrowInstallResult where
  state : EscrowState
  /-- an exception escaping the callback, if any -/
  raised : Option PyExc
  /-- the `ProvThread` created, if any -/
  workerCfg : Option WorkerCfg
  /-- whether the `return False` statement was reached -/
  retFalse : Bool
deriving Repr

/-- `ProvService.start_escrow_install` (`provsvc.py` lines 338-352).
`edgeCheck` is the outcome of `self.edge_iq_config.check_config()`;
`permHwAddress` the raw eth0 hardware address.  If the check reports
installed, the code executes `self.self.auto_install_min_sec = 0`, whose
`self.self` attribute lookup is evaluated against `provServiceAttrs`;
otherwise it reads `self.company_id` (an `AttributeError` when unbound)
and assigns it onto the edge backend, builds the escrow token
`f"esc-prefix + colon-stripped address"` and starts a full
download+apply `ProvThread` with `self.StateChanged` as callback. -/
def start_escrow_install (edgeCheck : Except PyExc Bool)
    (permHwAddress : String) (st : EscrowState) : EscrowInstallResult :=
  match edgeCheck with
  | .error e => ⟨st, some e, none, false⟩
  | .ok true =>
      if "self" ∈ provServiceAttrs then
        ⟨{ st with auto_install_min_sec := 0 }, none, none, true⟩
      else
        ⟨st, some (.attributeError "self"), none, false⟩
  | .ok false =>
      match st.company_id with
      | none => ⟨st, some (.attributeError "company_id"), none, false⟩
      | some cid =>
          let st1 := { st with edge_company_id := some cid }
          let eth0_addr := removeColons (get_eth0_addr permHwAddress)
          let st2 := { st1 with
            edge_escrow_token := some (st1.escrow_prefix_str ++ eth0_addr) }
          ⟨st2, none, some ⟨.edge, true, true, .stateChangedDirect⟩, false⟩

/-- Modelled from the spec: the `prov_exceptions` module is imported by
all three sources but is not in the repository snapshot.  Per the error
taxonomy of the spec (sections 4.1 and 7) it defines the two exception
classes for malformed backend configuration and invalid request
parameters; these are the names its `import *` contributes. -/
def provExceptionsExports : List String := ["ProvBadConfig", "ProvInvalid"]

/-- Module-level names bound in `ggconfig.py`: its import statements
(lines 4-15), the star-import from `prov_exceptions`, and its own
module-level definitions.  No statement of `ggconfig.py` binds the name
`provsvc`. -/
def ggconfigModuleNames : List String :=
  ["requests", "dbus", "RequestException", "syslog", "tempfile", "shutil",
   "os", "json", "subprocess", "b64decode", "sys", "urljoin"]
  ++ provExceptionsExports
  ++ ["IGUPD_SVC", "IGUPD_IFACE", "IGUPD_OBJ", "DEVICE_SVC",
   "DEVICE_PUB_IFACE", "DEVICE_OBJ", "DEVICE_IDS_BT_HW",
   "VALID_MQTT_PORTS", "VALID_HTTP_PORTS", "VALID_LOCAL_PORT_MIN",
   "VALID_LOCAL_PORT_MAX", "IGCONFD_SVC", "IGCONFD_IFACE", "IGCONFD_OBJ",
   "set_schedule", "set_wireless_config", "RESFILE_NAME", "CFGFILE_PATH",
   "ROOTCA_PATH", "FW_NAME", "REQUEST_TIMEOUT", "CONFIG_MAX_SIZE",
   "GGConfig"]

/-- Python global-name resolution: referencing a name not bound at module
level raises `NameError`. -/
def lookupGlobal (env : List String) (n : String) : Except PyExc Unit :=
  if n ∈ env then .ok () else .error (.nameError n)

/-- The fields of the `greengrass` sub-document of the remote
configuration that `GGConfig.start_core_download` reads. -/
structure GGSub where
  resourceFile : Option String
  coreFile : String
  coreSignature : String
  rootCACert : String
deriving DecidableEq, Repr

/-- The shape of the remote configuration document `cfg` as inspected by
`GGConfig.start_core_download`. -/
structure GGCfg where
  /-- whether `"update" in cfg` -/
  hasUpdate : Bool
  /-- whether `"update_schedule" in cfg["update"] or "download_schedule"
  in cfg["update"]` -/
  updateHasSchedule : Bool
  /-- `cfg["bl654"].get("firmware")` when `"bl654" in cfg`, else none -/
  bl654Firmware : Option String
  /-- whether `"coreThing" in cfg` -/
  hasCoreThing : Bool
  /-- whether `"updateAPS" in cfg` -/
  hasUpdateAPS : Bool
  /-- `cfg["greengrass"]`; none when the key is missing -/
  greengrass : Option GGSub
deriving DecidableEq, Repr

/-- Outcomes of the external calls `GGConfig.start_core_download`
makes, in source order. -/
structure GGWorld where
  /-- `self.http_read_config(self.endpoint_url)` -/
  readConfig : Except PyExc GGCfg
  /-- return value of `set_schedule(...)` -/
  scheduleRet : Int
  /-- `self.bt_hw_present()` -/
  btHw : Except PyExc Bool
  /-- return value of `set_wireless_config(...)` -/
  wirelessRet : Int
  /-- `self.http_download` of the resource file -/
  resourceDl : Except PyExc Unit
  /-- `self.download_gg_core(...)` -/
  coreDl : Except PyExc Unit
  /-- `self.http_download` of the BT firmware image -/
  fwDl : Except PyExc Unit
  /-- `self.http_download` of the root CA certificate -/
  rootCaDl : Except PyExc Unit
deriving Repr

/-- Result of one `GGConfig.start_core_download` execution: the raised
exception (if any; the `except` clause on lines 369-372 re-raises it
unchanged) and whether control reached the resource-download section
(lines 351-368, after the in-progress status update on line 349). -/
structure GGRunResult where
  error : Option PyExc
  reachedResourceDownload : Bool
deriving DecidableEq, Repr

/-- `GGConfig.start_core_download` (`ggconfig.py` lines 299-375),
transcribed step by step: read the configuration document, push an update
schedule (`ProvBadConfig` when `set_schedule` returns -1), compute the
optional BT firmware URL (empty firmware names are falsy), push wireless
configuration (`RuntimeError` when `set_wireless_config` returns -1),
extract `cfg["greengrass"]` (`KeyError` when missing), then execute
`self.update_state(provsvc.PROV_INPROGRESS_DOWNLOADING)` — which first
resolves the global name `provsvc` — and only then perform the resource,
core, firmware and root-CA downloads. -/
def GGConfig.start_core_download (w : GGWorld) : GGRunResult :=
  match w.readConfig with
  | .error e => ⟨some e, false⟩
  | .ok cfg =>
    if cfg.hasUpdate ∧ cfg.updateHasSchedule ∧ w.scheduleRet = -1 then
      ⟨some .provBadConfig, false⟩
    else
      match w.btHw with
      | .error e => ⟨some e, false⟩
      | .ok bt =>
        let fw_url : Option String :=
          if bt then
            match cfg.bl654Firmware with
            | some fwName => if fwName = "" then none else some fwName
            | none => none
          else none
        if cfg.hasUpdateAPS ∧ w.wirelessRet = -1 then
          ⟨some (.runtimeError "Failed to set up wireless configs"), false⟩
        else
          match cfg.greengrass with
          | none => ⟨some (.keyError "greengrass"), false⟩
          | some gg =>
            match lookupGlobal ggconfigModuleNames "provsvc" with
            | .error e => ⟨some e, false⟩
            | .ok _ =>
              match (if gg.resourceFile.isSome then w.resourceDl
                     else .ok ()) with
              | .error e => ⟨some e, true⟩
              | .ok _ =>
                match w.coreDl with
                | .error e => ⟨some e, true⟩
                | .ok _ =>
                  match (if fw_url.isSome then w.fwDl else .ok ()) with
                  | .error e => ⟨some e, true⟩
                  | .ok _ =>
                    match w.rootCaDl with
                    | .error e => ⟨some e, true⟩
                    | .ok _ => ⟨none, true⟩

/-- A `GGRunResult` as seen by `ProvThread.run`'s `try` block when it
calls `start_core_download()`. -/
def GGRunResult.toPhaseOutcome (r : GGRunResult) : Except PyExc Unit :=
  match r.error with
  | some e => .error e
  | none => .ok ()

/-- The status publication performed by a Worker completion: the
callback (`self.StateChanged`) is invoked once with the terminal status,
which executes one `StateChanged` call and hence emits exactly one
broadcast. -/
def workerCompletionPublish (w : World) (st : EngineState)
    (terminal : ProvStatus) : EngineState × List ProvStatus :=
  (StateChanged w st terminal, stateChangedBroadcasts terminal)

/-- An Engine state with the edge backend provisioned and the core
backend not provisioned. -/
def stEdgeProvisioned : EngineState :=
  { result := .Unprovisioned, greengrass_provisioned := false,
    edge_iq_provisioned := true, edge_company_id := none,
    gg_endpoint_url := none, gg_clientcert := none,
    gg_username := none, gg_password := none }

/-- An Engine state with the core (Greengrass) backend provisioned and
the edge backend not provisioned. -/
def stGGProvisioned : EngineState :=
  { result := .Unprovisioned, greengrass_provisioned := true,
    edge_iq_provisioned := false, edge_company_id := none,
    gg_endpoint_url := none, gg_clientcert := none,
    gg_username := none, gg_password := none }

/-- An Engine state with neither backend provisioned. -/
def stUnprovisioned : EngineState :=
  { result := .Unprovisioned, greengrass_provisioned := false,
    edge_iq_provisioned := false, edge_company_id := none,
    gg_endpoint_url := none, gg_clientcert := none,
    gg_username := none, gg_password := none }

/-- A check world in which both backends' `check_config()` currently
report installed. -/
def wBothInstalled : World := ⟨.ok true, .ok true⟩

/-- An escrow state that is counting down: thresholds armed
(`auto_install_min_sec = 10`), full connectivity, one outstanding timer
with source id 5. -/
def escrowCountingDown : EscrowState :=
  { nm_connectivity := 4, auto_install_min_sec := 10,
    auto_install_max_sec := 20, escrow_prefix_str := "esc_",
    company_id := some "acme", escrow_timer := some 5,
    pendingTimers := [5],
    edge_company_id := none, edge_escrow_token := none }

/-- An escrow state at the moment its timer (source id 9) fires: GLib has
already removed the one-shot source, the thresholds are still armed. -/
def escrowFired : EscrowState :=
  { nm_connectivity := 4, auto_install_min_sec := 30,
    auto_install_max_sec := 60, escrow_prefix_str := "esc_",
    company_id := some "acme", escrow_timer := some 9,
    pendingTimers := [],
    edge_company_id := none, edge_escrow_token := none }

/-- A `greengrass` sub-document with no resource file. -/
def ggSubPlain : GGSub :=
  { resourceFile := none, coreFile := "core.tar.gz",
    coreSignature := "c2ln", rootCACert := "https://ca.example/root.pem" }

/-- A minimal remote configuration document containing only the
`greengrass` element. -/
def ggCfgPlain : GGCfg :=
  { hasUpdate := false, updateHasSchedule := false, bl654Firmware := none,
    hasCoreThing := false, hasUpdateAPS := false,
    greengrass := some ggSubPlain }

/-- A `GGWorld` in which every external call succeeds: the configuration
document is read successfully and all downloads would succeed. -/
def ggWorldAllOk : GGWorld :=
  { readConfig := .ok ggCfgPlain, scheduleRet := 0, btHw := .ok false,
    wirelessRet := 0, resourceDl := .ok (), coreDl := .ok (),
    fwDl := .ok (), rootCaDl := .ok () }

/-- A `GGWorld` in which the configuration document is read successfully
but carries an update schedule that `set_schedule` rejects (returns -1). -/
def ggWorldScheduleRejected : GGWorld :=
  { readConfig := .ok { ggCfgPlain with
      hasUpdate := true, updateHasSchedule := true },
    scheduleRet := -1, btHw := .ok false, wirelessRet := 0,
    resourceDl := .ok (), coreDl := .ok (), fwDl := .ok (),
    rootCaDl := .ok () }

/-- Claim C2: for every Worker run, the terminal status is determined by
the first error raised across the selected phases, with subsequent phases
skipped — connection failure maps to FailedConnect, timeout to
FailedTimeout, HTTP 401/403 to FailedAuth, HTTP 404 to FailedNotFound,
other HTTP errors to FailedUnknown, ProvBadConfig to FailedBadConfig,
ProvInvalid to FailedInvalid, any other exception to FailedUnknown, and
Success when every selected phase completes; no exception escapes the
Worker, and a 404 in the download phase prevents the apply phase from
running. -/
theorem worker_error_classification :
    (∀ a ap e, (provThreadRun true a (.error e) ap).result = classify e
      ∧ (provThreadRun true a (.error e) ap).applyInvoked = false) ∧
    (∀ ap, (provThreadRun true true (.error .connectionError) ap).result
      = .FailedConnect) ∧
    (∀ ap, (provThreadRun true true (.error .timeout) ap).result
      = .FailedTimeout) ∧
    (∀ ap s, (provThreadRun true true (.error (.httpError s)) ap).result
      = if s = UNAUTHORIZED ∨ s = FORBIDDEN then .FailedAuth
        else if s = NOT_FOUND then .FailedNotFound
        else .FailedUnknown) ∧
    (∀ ap, (provThreadRun true true (.error (.httpError 500)) ap).result
      = .FailedUnknown) ∧
    (∀ ap, (provThreadRun true true (.error .provBadConfig) ap).result
      = .FailedBadConfig) ∧
    (∀ ap, (provThreadRun true true (.error .provInvalid) ap).result
      = .FailedInvalid) ∧
    (∀ ap msg, (provThreadRun true true (.error (.other msg)) ap).result
      = .FailedUnknown) ∧
    (∀ d e, (provThreadRun d true (.ok ()) (.error e)).result = classify e) ∧
    (∀ d a, (provThreadRun d a (.ok ()) (.ok ())).result
      = .CompleteSuccess) ∧
    (∀ d a dl ap, (provThreadRun d a dl ap).escaped = none) ∧
    (∀ ap, (provThreadRun true true (.error (.httpError 404)) ap).result
      = .FailedNotFound
      ∧ (provThreadRun true true (.error (.httpError 404)) ap).applyInvoked
        = false) := by
  refine ⟨fun a ap e => ⟨rfl, rfl⟩, fun ap => rfl, fun ap => rfl,
    fun ap s => rfl, fun ap => rfl, fun ap => rfl, fun ap => rfl,
    fun ap msg => rfl, ?_, ?_, ?_, fun ap => ⟨rfl, rfl⟩⟩
  · intro d e
    cases d <;> rfl
  · intro d a
    cases d <;> cases a <;> rfl
  · intro d a dl ap
    cases d <;> cases a <;> cases dl <;> cases ap <;> rfl

/-- Claim C9: every Worker run invokes the completion callback exactly
once, with the single terminal status, and only after the selected phases
have completed or the first one failed (the callback is the final event
of the run's trace); the terminal status defaults to Success when both
phases complete without error. -/
theorem worker_single_callback :
    (∀ d a dl ap,
      (provThreadRun d a dl ap).trace.filter RunEvent.isCallback
        = [.callbackInvoked (provThreadRun d a dl ap).result]
      ∧ (provThreadRun d a dl ap).trace.getLast?
        = some (.callbackInvoked (provThreadRun d a dl ap).result)) ∧
    (provThreadRun true true (.ok ()) (.ok ())).result
      = .CompleteSuccess := by
  refine ⟨?_, rfl⟩
  intro d a dl ap
  cases d <;> cases a <;> cases dl <;> cases ap <;>
    simp [provThreadRun, RunEvent.isCallback]

/-- Claim C6: every status publication stores the new status and then
re-queries both backends' checks, setting both provisioned flags to the
fresh results — independent of the previously stored flags — and a check
that raises is recorded as not provisioned and logged, with the exception
never propagated (the publication always returns normally, as witnessed
by `StateChanged` being a total function into `EngineState`). -/
theorem state_publication_refreshes_flags :
    ∀ (w : World) (st st' : EngineState) (r : ProvStatus),
      (StateChanged w st r).result = r
      ∧ (StateChanged w st r).greengrass_provisioned
          = flagOfCheck w.ggCheck
      ∧ (StateChanged w st r).edge_iq_provisioned
          = flagOfCheck w.edgeCheck
      ∧ (StateChanged w st r).greengrass_provisioned
          = (StateChanged w st' r).greengrass_provisioned
      ∧ (StateChanged w st r).edge_iq_provisioned
          = (StateChanged w st' r).edge_iq_provisioned
      ∧ flagOfCheck (.error ()) = false
      ∧ stateChangedLogGG (.error ())
          = ["Greengrass configuration check failed with exception"]
      ∧ stateChangedLogEdge (.error ())
          = ["Edge IQ configuration check failed with exception"] :=
  fun _ _ _ _ => ⟨rfl, rfl, rfl, rfl, rfl, rfl, rfl, rfl⟩

/-- Claim C1 (refuted by the code; see also update_state's own comment
"Don't call DBus method on thread (unsafe!)"): every `ProvThread`
creation site in `provsvc.py` passes the bound method `self.StateChanged`
itself as the completion callback, so `ProvThread.run` invokes it — and
with it the mutation of the Engine's status and provisioned flags — in
place on the worker's thread; the marshalling wrapper `update_state`,
which would run the mutation on the main loop, is not used for Worker
completion. -/
theorem worker_completion_runs_on_worker_thread :
    (∀ (w : World) (st : EngineState) (url : String) (a : AuthParams),
      ((StartProvisioning w st url a).workerCfg.all
        fun c => c.callback == CallbackKind.stateChangedDirect) = true
      ∧ ((StartCoreDownload w st url a).workerCfg.all
        fun c => c.callback == CallbackKind.stateChangedDirect) = true
      ∧ ((PerformCoreUpdate w st).workerCfg.all
        fun c => c.callback == CallbackKind.stateChangedDirect) = true) ∧
    (∀ (ec : Except PyExc Bool) (hw : String) (st : EscrowState),
      ((start_escrow_install ec hw st).workerCfg.all
        fun c => c.callback == CallbackKind.stateChangedDirect) = true) ∧
    callbackRunContext .stateChangedDirect .workerThread = .workerThread ∧
    callbackRunContext .updateStateMarshalled .workerThread = .mainLoop := by
  refine ⟨?_, ?_, rfl, rfl⟩
  · intro w st url a
    refine ⟨?_, rfl, rfl⟩
    unfold StartProvisioning startProvisioningEdgeBranch
      startProvisioningGGBranch
    split
    · split
      · rfl
      · rcases h : set_company_id_from_url url with e | cid <;> simp
    · split <;> rfl
  · intro ec hw st
    unfold start_escrow_install
    rcases ec with e | b
    · rfl
    · cases b
      · dsimp only
        rcases st.company_id with _ | cid <;> rfl
      · dsimp only
        split <;> rfl

/-- Claim C3: a `StartProvisioning` call whose endpoint URL routes to a
backend whose provisioned flag is already true returns `FailedInvalid`
synchronously, emits no broadcast from that branch, and creates no
Worker — for the edge backend (URL containing the edge domain) and for
the core backend (any other URL) alike. -/
theorem already_provisioned_rejected_synchronously :
    ∀ (w1 w2 : World) (st1 st2 : EngineState) (u v : String)
      (a1 a2 : AuthParams),
      has_edge_domain u = true →
      st1.edge_iq_provisioned = true →
      has_edge_domain v = false →
      st2.greengrass_provisioned = true →
      (StartProvisioning w1 st1 u a1).ret = .FailedInvalid
      ∧ (StartProvisioning w1 st1 u a1).workerStarted = false
      ∧ (StartProvisioning w1 st1 u a1).workerCfg = none
      ∧ (StartProvisioning w2 st2 v a2).ret = .FailedInvalid
      ∧ (StartProvisioning w2 st2 v a2).workerStarted = false
      ∧ (StartProvisioning w2 st2 v a2).workerCfg = none := by
  intro w1 w2 st1 st2 u v a1 a2 hu h1 hv h2
  simp [StartProvisioning, startProvisioningEdgeBranch,
    startProvisioningGGBranch, hu, hv, h1, h2]

/-- Concrete instance of `already_provisioned_rejected_synchronously`:
an edge-domain URL against an edge-provisioned Engine and a non-edge URL
against a Greengrass-provisioned Engine are both rejected with
`FailedInvalid` and no Worker. -/
theorem already_provisioned_rejected_synchronously_witness :
    has_edge_domain "http://api.edgeiq.io/api/v1/acme" = true
    ∧ has_edge_domain "https://fleet.example/api/v1/org/acme" = false
    ∧ ((StartProvisioning ⟨.ok false, .ok true⟩
        { result := .Unprovisioned, greengrass_provisioned := false,
          edge_iq_provisioned := true, edge_company_id := none,
          gg_endpoint_url := none, gg_clientcert := none,
          gg_username := none, gg_password := none }
        "http://api.edgeiq.io/api/v1/acme" ⟨none, none, none⟩).ret
        = .FailedInvalid
      ∧ (StartProvisioning ⟨.ok false, .ok true⟩
        { result := .Unprovisioned, greengrass_provisioned := false,
          edge_iq_provisioned := true, edge_company_id := none,
          gg_endpoint_url := none, gg_clientcert := none,
          gg_username := none, gg_password := none }
        "http://api.edgeiq.io/api/v1/acme" ⟨none, none, none⟩).workerStarted
        = false
      ∧ (StartProvisioning ⟨.ok false, .ok true⟩
        { result := .Unprovisioned, greengrass_provisioned := false,
          edge_iq_provisioned := true, edge_company_id := none,
          gg_endpoint_url := none, gg_clientcert := none,
          gg_username := none, gg_password := none }
        "http://api.edgeiq.io/api/v1/acme" ⟨none, none, none⟩).workerCfg
        = none
      ∧ (StartProvisioning ⟨.ok true, .ok false⟩
        { result := .Unprovisioned, greengrass_provisioned := true,
          edge_iq_provisioned := false, edge_company_id := none,
          gg_endpoint_url := none, gg_clientcert := none,
          gg_username := none, gg_password := none }
        "https://fleet.example/api/v1/org/acme" ⟨none, some "u", some "p"⟩).ret
        = .FailedInvalid
      ∧ (StartProvisioning ⟨.ok true, .ok false⟩
        { result := .Unprovisioned, greengrass_provisioned := true,
          edge_iq_provisioned := false, edge_company_id := none,
          gg_endpoint_url := none, gg_clientcert := none,
          gg_username := none, gg_password := none }
        "https://fleet.example/api/v1/org/acme" ⟨none, some "u", some "p"⟩).workerStarted
        = false
      ∧ (StartProvisioning ⟨.ok true, .ok false⟩
        { result := .Unprovisioned, greengrass_provisioned := true,
          edge_iq_provisioned := false, edge_company_id := none,
          gg_endpoint_url := none, gg_clientcert := none,
          gg_username := none, gg_password := none }
        "https://fleet.example/api/v1/org/acme" ⟨none, some "u", some "p"⟩).workerCfg
        = none) :=
  ⟨by decide, by decide,
    already_provisioned_rejected_synchronously
      ⟨.ok false, .ok true⟩ ⟨.ok true, .ok false⟩
      { result := .Unprovisioned, greengrass_provisioned := false,
        edge_iq_provisioned := true, edge_company_id := none,
        gg_endpoint_url := none, gg_clientcert := none,
        gg_username := none, gg_password := none }
      { result := .Unprovisioned, greengrass_provisioned := true,
        edge_iq_provisioned := false, edge_company_id := none,
        gg_endpoint_url := none, gg_clientcert := none,
        gg_username := none, gg_password := none }
      "http://api.edgeiq.io/api/v1/acme"
      "https://fleet.example/api/v1/org/acme"
      ⟨none, none, none⟩ ⟨none, some "u", some "p"⟩
      (by decide) rfl (by decide) rfl⟩

/-- Claim C5: for every URL whose `/`-split has at least four components,
the parsed company identifier is the final component (and a worker-bound
request stores it on the edge backend before starting the Worker); for
every URL with fewer than four components the parse raises the
bad-configuration exception `ProvBadConfig`, and an edge request with
such a URL creates no Worker — the failure occurs in the synchronous
call, before any network activity, which happens only inside Workers. -/
theorem edge_url_company_id_parsing :
    ∀ (u v : String) (w : World) (st : EngineState),
      4 ≤ (pySplitSlash u).length →
      (pySplitSlash v).length < 4 →
      st.edge_iq_provisioned = false →
      set_company_id_from_url u = .ok ((pySplitSlash u).getLastD "")
      ∧ (startProvisioningEdgeBranch w st u).state.edge_company_id
          = some ((pySplitSlash u).getLastD "")
      ∧ (startProvisioningEdgeBranch w st u).workerStarted = true
      ∧ set_company_id_from_url v = .error .provBadConfig
      ∧ (startProvisioningEdgeBranch w st v).workerStarted = false
      ∧ (startProvisioningEdgeBranch w st v).workerCfg = none
      ∧ (startProvisioningEdgeBranch w st v).ret = .FailedInvalid := by
  intro u v w st h4 hv he
  have hnot : ¬ (pySplitSlash u).length < 4 := Nat.not_lt.mpr h4
  simp [set_company_id_from_url, startProvisioningEdgeBranch,
    StateChanged, hnot, hv, he]

/-- Concrete instance of `edge_url_company_id_parsing`: the edge URL
`http://api.edgeiq.io/api/v1/acme` splits into six components and parses
to company id `acme`; the URL `x` has one component and is rejected with
`ProvBadConfig` and no Worker. -/
theorem edge_url_company_id_parsing_witness :
    4 ≤ (pySplitSlash "http://api.edgeiq.io/api/v1/acme").length
    ∧ (pySplitSlash "x").length < 4
    ∧ (pySplitSlash "http://api.edgeiq.io/api/v1/acme").getLastD ""
        = "acme"
    ∧ (set_company_id_from_url "http://api.edgeiq.io/api/v1/acme"
        = .ok ((pySplitSlash "http://api.edgeiq.io/api/v1/acme").getLastD "")
      ∧ (startProvisioningEdgeBranch wBothInstalled stUnprovisioned
          "http://api.edgeiq.io/api/v1/acme").state.edge_company_id
          = some ((pySplitSlash "http://api.edgeiq.io/api/v1/acme").getLastD "")
      ∧ (startProvisioningEdgeBranch wBothInstalled stUnprovisioned
          "http://api.edgeiq.io/api/v1/acme").workerStarted = true
      ∧ set_company_id_from_url "x" = .error .provBadConfig
      ∧ (startProvisioningEdgeBranch wBothInstalled stUnprovisioned
          "x").workerStarted = false
      ∧ (startProvisioningEdgeBranch wBothInstalled stUnprovisioned
          "x").workerCfg = none
      ∧ (startProvisioningEdgeBranch wBothInstalled stUnprovisioned
          "x").ret = .FailedInvalid) :=
  ⟨by decide, by decide, by decide,
    edge_url_company_id_parsing "http://api.edgeiq.io/api/v1/acme" "x"
      wBothInstalled stUnprovisioned (by decide) (by decide) rfl⟩

/-- Claim C4 is false of the code: the synchronous `FailedInvalid`
rejection of an already-provisioned request is a terminal outcome that
emits no status-changed broadcast at all and does not refresh the
provisioned flags — here the fresh Greengrass check reports installed,
yet the stored flag remains false after the rejected call. -/
theorem rejection_emits_no_broadcast_cex :
    (StartProvisioning wBothInstalled stEdgeProvisioned
      "http://api.edgeiq.io/api/v1/acme" ⟨none, none, none⟩).ret
      = .FailedInvalid
    ∧ (StartProvisioning wBothInstalled stEdgeProvisioned
      "http://api.edgeiq.io/api/v1/acme" ⟨none, none, none⟩).broadcasts
      = []
    ∧ (StartProvisioning wBothInstalled stEdgeProvisioned
      "http://api.edgeiq.io/api/v1/acme"
        ⟨none, none, none⟩).state.greengrass_provisioned = false
    ∧ flagOfCheck wBothInstalled.ggCheck = true := by
  refine ⟨?_, ?_, ?_, rfl⟩ <;> decide

/-- Claim C4 as amended: every terminal outcome that is reported through
the `StateChanged` path — a Worker completion (at any Engine state) or
the synchronous failure publication inside `StartProvisioning`'s
exception handler — results in exactly one status-changed broadcast and
a freshly updated pair of provisioned flags; the synchronous
`FailedInvalid` rejection of an already-provisioned request, however —
for the edge backend and the Greengrass backend alike — emits no
broadcast and leaves both flags untouched. -/
theorem terminal_outcome_broadcast_policy :
    ∀ (w : World) (st0 st1 st2 st3 : EngineState) (terminal : ProvStatus)
      (u v : String) (a : AuthParams),
      (pySplitSlash u).length < 4 →
      st1.edge_iq_provisioned = false →
      st2.edge_iq_provisioned = true →
      st3.greengrass_provisioned = true →
      ((workerCompletionPublish w st0 terminal).2 = [terminal]
      ∧ (workerCompletionPublish w st0 terminal).1.greengrass_provisioned
          = flagOfCheck w.ggCheck
      ∧ (workerCompletionPublish w st0 terminal).1.edge_iq_provisioned
          = flagOfCheck w.edgeCheck)
      ∧ ((startProvisioningEdgeBranch w st1 u).broadcasts = [.FailedInvalid]
      ∧ (startProvisioningEdgeBranch w st1 u).state.greengrass_provisioned
          = flagOfCheck w.ggCheck
      ∧ (startProvisioningEdgeBranch w st1 u).state.edge_iq_provisioned
          = flagOfCheck w.edgeCheck
      ∧ (startProvisioningEdgeBranch w st1 u).ret = .FailedInvalid
      ∧ (startProvisioningEdgeBranch w st1 u).workerStarted = false)
      ∧ ((startProvisioningEdgeBranch w st2 v).broadcasts = []
      ∧ (startProvisioningEdgeBranch w st2 v).state.greengrass_provisioned
          = st2.greengrass_provisioned
      ∧ (startProvisioningEdgeBranch w st2 v).state.edge_iq_provisioned
          = st2.edge_iq_provisioned
      ∧ (startProvisioningEdgeBranch w st2 v).ret = .FailedInvalid)
      ∧ ((startProvisioningGGBranch w st3 v a).broadcasts = []
      ∧ (startProvisioningGGBranch w st3 v a).state.greengrass_provisioned
          = st3.greengrass_provisioned
      ∧ (startProvisioningGGBranch w st3 v a).state.edge_iq_provisioned
          = st3.edge_iq_provisioned
      ∧ (startProvisioningGGBranch w st3 v a).ret = .FailedInvalid) := by
  intro w st0 st1 st2 st3 terminal u v a hu h1 h2 h3
  refine ⟨⟨rfl, rfl, rfl⟩, ?_, ?_, ?_⟩
  · simp [startProvisioningEdgeBranch, set_company_id_from_url,
      StateChanged, stateChangedBroadcasts, h1, hu]
  · simp [startProvisioningEdgeBranch, h2]
  · simp [startProvisioningGGBranch, h3]

/-- Concrete instance of `terminal_outcome_broadcast_policy`: a Worker
completion with `FailedConnect` emits exactly one broadcast and
refreshes both flags; the exception-handler publication for a
too-short edge URL emits exactly one `FailedInvalid` broadcast with
fresh flags and no Worker; and the rejections of an edge request
against an edge-provisioned Engine and of a core request against a
Greengrass-provisioned Engine emit none and keep the stale flags. -/
theorem terminal_outcome_broadcast_policy_witness :
    (pySplitSlash "x").length < 4
    ∧ stUnprovisioned.edge_iq_provisioned = false
    ∧ stEdgeProvisioned.edge_iq_provisioned = true
    ∧ stGGProvisioned.greengrass_provisioned = true
    ∧ (((workerCompletionPublish wBothInstalled stUnprovisioned
          .FailedConnect).2 = [.FailedConnect]
      ∧ (workerCompletionPublish wBothInstalled stUnprovisioned
          .FailedConnect).1.greengrass_provisioned
          = flagOfCheck wBothInstalled.ggCheck
      ∧ (workerCompletionPublish wBothInstalled stUnprovisioned
          .FailedConnect).1.edge_iq_provisioned
          = flagOfCheck wBothInstalled.edgeCheck)
      ∧ ((startProvisioningEdgeBranch wBothInstalled stUnprovisioned
          "x").broadcasts = [.FailedInvalid]
      ∧ (startProvisioningEdgeBranch wBothInstalled stUnprovisioned
          "x").state.greengrass_provisioned
          = flagOfCheck wBothInstalled.ggCheck
      ∧ (startProvisioningEdgeBranch wBothInstalled stUnprovisioned
          "x").state.edge_iq_provisioned
          = flagOfCheck wBothInstalled.edgeCheck
      ∧ (startProvisioningEdgeBranch wBothInstalled stUnprovisioned
          "x").ret = .FailedInvalid
      ∧ (startProvisioningEdgeBranch wBothInstalled stUnprovisioned
          "x").workerStarted = false)
      ∧ ((startProvisioningEdgeBranch wBothInstalled stEdgeProvisioned
          "http://api.edgeiq.io/api/v1/acme").broadcasts = []
      ∧ (startProvisioningEdgeBranch wBothInstalled stEdgeProvisioned
          "http://api.edgeiq.io/api/v1/acme").state.greengrass_provisioned
          = stEdgeProvisioned.greengrass_provisioned
      ∧ (startProvisioningEdgeBranch wBothInstalled stEdgeProvisioned
          "http://api.edgeiq.io/api/v1/acme").state.edge_iq_provisioned
          = stEdgeProvisioned.edge_iq_provisioned
      ∧ (startProvisioningEdgeBranch wBothInstalled stEdgeProvisioned
          "http://api.edgeiq.io/api/v1/acme").ret = .FailedInvalid)
      ∧ ((startProvisioningGGBranch wBothInstalled stGGProvisioned
          "http://api.edgeiq.io/api/v1/acme"
          ⟨none, some "u", some "p"⟩).broadcasts = []
      ∧ (startProvisioningGGBranch wBothInstalled stGGProvisioned
          "http://api.edgeiq.io/api/v1/acme"
          ⟨none, some "u", some "p"⟩).state.greengrass_provisioned
          = stGGProvisioned.greengrass_provisioned
      ∧ (startProvisioningGGBranch wBothInstalled stGGProvisioned
          "http://api.edgeiq.io/api/v1/acme"
          ⟨none, some "u", some "p"⟩).state.edge_iq_provisioned
          = stGGProvisioned.edge_iq_provisioned
      ∧ (startProvisioningGGBranch wBothInstalled stGGProvisioned
          "http://api.edgeiq.io/api/v1/acme"
          ⟨none, some "u", some "p"⟩).ret = .FailedInvalid)) :=
  ⟨by decide, rfl, rfl, rfl,
    terminal_outcome_broadcast_policy wBothInstalled stUnprovisioned
      stUnprovisioned stEdgeProvisioned stGGProvisioned .FailedConnect
      "x" "http://api.edgeiq.io/api/v1/acme" ⟨none, some "u", some "p"⟩
      (by decide) rfl rfl rfl⟩

/-- No branch of the `except` ladder stores `PROV_COMPLETE_SUCCESS`: a
classified exception never yields the success status. -/
theorem classify_ne_success (e : PyExc) :
    classify e ≠ ProvStatus.CompleteSuccess := by
  cases e <;> simp [classify]
  split_ifs <;> simp

/-- Claim C7 (the disarm half is refuted by the code): when the escrow
timer fires and the edge backend now reports provisioned, the statement
`self.self.auto_install_min_sec = 0` (comment: "Prevent rescheduling")
raises `AttributeError` because `ProvService` has no attribute `self`, so
the armed threshold is NOT cleared and a later full-connectivity
notification schedules a new escrow install; no installation action is
taken in that branch.  In the not-provisioned branch the escrow token is
the configured prefix concatenated with the lowercased, colon-stripped
hardware address, the company id is assigned onto the edge backend, and
a full download+apply Worker completing through `StateChanged` is
started. -/
theorem escrow_fire_eval :
    ((start_escrow_install (.ok true) "C0:EE:40:DE:AD:01"
        escrowFired).raised = some (.attributeError "self")
      ∧ (start_escrow_install (.ok true) "C0:EE:40:DE:AD:01"
        escrowFired).state.auto_install_min_sec = 30
      ∧ (start_escrow_install (.ok true) "C0:EE:40:DE:AD:01"
        escrowFired).workerCfg = none
      ∧ (nm_props_changed 11 (start_escrow_install (.ok true)
          "C0:EE:40:DE:AD:01" escrowFired).state
          (some NM_CONNECTIVITY_FULL)).1.pendingTimers = [11]
      ∧ (nm_props_changed 11 (start_escrow_install (.ok true)
          "C0:EE:40:DE:AD:01" escrowFired).state
          (some NM_CONNECTIVITY_FULL)).2 = none) ∧
    (∀ (st : EscrowState) (hw cid : String),
      (start_escrow_install (.ok false) hw
          { st with company_id := some cid }).state.edge_escrow_token
        = some (st.escrow_prefix_str ++ removeColons (get_eth0_addr hw))
      ∧ (start_escrow_install (.ok false) hw
          { st with company_id := some cid }).state.edge_company_id
        = some cid
      ∧ (start_escrow_install (.ok false) hw
          { st with company_id := some cid }).workerCfg
        = some ⟨.edge, true, true, .stateChangedDirect⟩) ∧
    (start_escrow_install (.ok false) "C0:EE:40:DE:AD:01"
      escrowFired).state.edge_escrow_token = some "esc_c0ee40dead01" := by
  refine ⟨⟨by decide, by decide, by decide, by decide, by decide⟩,
    fun st hw cid => ⟨rfl, rfl, rfl⟩, by decide⟩

/-- Claim C8 is false of the code: a full-connectivity notification
arriving while the scheduler is already counting down (timer id 5
outstanding) is not a no-op — `nm_props_changed` schedules a second
timer (id 7), leaving two sources outstanding and overwriting the stored
handle so the first timer can no longer be cancelled. -/
theorem full_signal_while_counting_down_cex :
    escrowCountingDown.escrow_timer = some 5
    ∧ escrowCountingDown.pendingTimers = [5]
    ∧ (nm_props_changed 7 escrowCountingDown (some 4)).1.pendingTimers
        = [7, 5]
    ∧ (nm_props_changed 7 escrowCountingDown (some 4)).1.escrow_timer
        = some 7
    ∧ (nm_props_changed 7 escrowCountingDown (some 4)).2 = none := by
  refine ⟨rfl, rfl, by decide, by decide, by decide⟩

/-- Claim C8 as amended: a full-connectivity notification with the
thresholds armed, a non-empty delay range and the company id bound
always schedules a fresh escrow timer without raising, even while one
is already counting down: the new source id is prepended to the
outstanding timers and overwrites the stored handle; (when the delay
range is empty or the company id is unbound, `schedule_escrow_install`
instead raises out of the signal handler and registers nothing); the
code enforces no at-most-one-timer invariant. -/
theorem full_signal_always_schedules :
    ∀ (st : EscrowState) (fresh : Nat) (cid : String),
      0 < st.auto_install_min_sec →
      st.auto_install_min_sec < st.auto_install_max_sec →
      st.company_id = some cid →
      (nm_props_changed fresh st
          (some NM_CONNECTIVITY_FULL)).1.pendingTimers
        = fresh :: st.pendingTimers
      ∧ (nm_props_changed fresh st
          (some NM_CONNECTIVITY_FULL)).1.escrow_timer = some fresh
      ∧ (nm_props_changed fresh st (some NM_CONNECTIVITY_FULL)).2
        = none := by
  intro st fresh cid h hr hc
  simp [nm_props_changed, schedule_escrow_install, NM_CONNECTIVITY_FULL,
    h, hc, Nat.not_le.mpr hr]

/-- Concrete instance of `full_signal_always_schedules` at the
counting-down state. -/
theorem full_signal_always_schedules_witness :
    0 < escrowCountingDown.auto_install_min_sec
    ∧ escrowCountingDown.auto_install_min_sec
        < escrowCountingDown.auto_install_max_sec
    ∧ escrowCountingDown.company_id = some "acme"
    ∧ ((nm_props_changed 7 escrowCountingDown
          (some NM_CONNECTIVITY_FULL)).1.pendingTimers
        = 7 :: escrowCountingDown.pendingTimers
      ∧ (nm_props_changed 7 escrowCountingDown
          (some NM_CONNECTIVITY_FULL)).1.escrow_timer = some 7
      ∧ (nm_props_changed 7 escrowCountingDown
          (some NM_CONNECTIVITY_FULL)).2 = none) :=
  ⟨by decide, by decide, rfl,
    full_signal_always_schedules escrowCountingDown 7 "acme"
      (by decide) (by decide) rfl⟩

/-- Claim C10 is overstated: here the remote configuration document is
read successfully, yet no `NameError` is raised — the update schedule in
the document is rejected by `set_schedule`, so `start_core_download`
raises `ProvBadConfig` before reaching the status-update line, and the
Worker reports `FailedBadConfig`, not `FailedUnknown`. -/
theorem gg_download_schedule_rejected_cex :
    ggWorldScheduleRejected.readConfig
      = .ok { ggCfgPlain with hasUpdate := true, updateHasSchedule := true }
    ∧ (GGConfig.start_core_download ggWorldScheduleRejected).error
        = some .provBadConfig
    ∧ (provThreadRun true true
        (GGConfig.start_core_download
          ggWorldScheduleRejected).toPhaseOutcome (.ok ())).result
        = .FailedBadConfig := by
  refine ⟨rfl, by decide, by decide⟩

/-- Claim C10 as amended: every `GGConfig.start_core_download` execution
raises some exception before the resource-download steps, so a
core-backend download Worker can never terminate with Success; and on
every run where the configuration document is read successfully and the
processing steps before the status update succeed (schedule push not
rejected, Bluetooth-hardware check returns, wireless push not rejected,
`greengrass` key present), the raised exception is the `NameError` on
the unbound module name `provsvc` at the in-progress status update, and
the Worker reports `FailedUnknown`. -/
theorem gg_download_always_fails_before_resources :
    (∀ (w : GGWorld),
      (GGConfig.start_core_download w).reachedResourceDownload = false
      ∧ (GGConfig.start_core_download w).error.isSome = true
      ∧ ∀ (a : Bool) (ap : Except PyExc Unit),
          (provThreadRun true a
            (GGConfig.start_core_download w).toPhaseOutcome ap).result
            ≠ .CompleteSuccess) ∧
    (∀ (w : GGWorld) (cfg : GGCfg) (gg : GGSub) (bt : Bool),
      w.readConfig = .ok cfg →
      ¬ (cfg.hasUpdate ∧ cfg.updateHasSchedule ∧ w.scheduleRet = -1) →
      w.btHw = .ok bt →
      ¬ (cfg.hasUpdateAPS ∧ w.wirelessRet = -1) →
      cfg.greengrass = some gg →
      (GGConfig.start_core_download w).error
        = some (.nameError "provsvc")
      ∧ ∀ ap, (provThreadRun true true
          (GGConfig.start_core_download w).toPhaseOutcome ap).result
          = .FailedUnknown) := by
  have hlook : lookupGlobal ggconfigModuleNames "provsvc"
      = .error (.nameError "provsvc") := by decide
  have hx : ∀ w : GGWorld, ∃ e, GGConfig.start_core_download w
      = ⟨some e, false⟩ := by
    intro w
    obtain ⟨rc, sr, bh, wr, rd, cd, fd, cad⟩ := w
    unfold GGConfig.start_core_download
    rcases rc with e | cfg
    · exact ⟨e, rfl⟩
    · dsimp only
      by_cases h1 : cfg.hasUpdate = true ∧ cfg.updateHasSchedule = true
          ∧ sr = -1
      · rw [if_pos h1]
        exact ⟨_, rfl⟩
      · rw [if_neg h1]
        rcases bh with e | bt
        · exact ⟨e, rfl⟩
        · dsimp only
          by_cases h2 : cfg.hasUpdateAPS = true ∧ wr = -1
          · rw [if_pos h2]
            exact ⟨_, rfl⟩
          · rw [if_neg h2]
            rcases cfg.greengrass with _ | gg
            · exact ⟨_, rfl⟩
            · rw [hlook]
              exact ⟨_, rfl⟩
  constructor
  · intro w
    obtain ⟨e, he⟩ := hx w
    rw [he]
    refine ⟨rfl, rfl, ?_⟩
    intro a ap
    have hres : (provThreadRun true a
        ((⟨some e, false⟩ : GGRunResult).toPhaseOutcome) ap).result
        = classify e := rfl
    rw [hres]
    exact classify_ne_success e
  · intro w cfg gg bt hr hns hb hnw hg
    have he : GGConfig.start_core_download w
        = ⟨some (.nameError "provsvc"), false⟩ := by
      unfold GGConfig.start_core_download
      rw [hr]
      dsimp only
      rw [if_neg hns]
      rw [hb]
      dsimp only
      rw [if_neg hnw, hg, hlook]
    rw [he]
    exact ⟨rfl, fun ap => rfl⟩

/-- Concrete instance of `gg_download_always_fails_before_resources`: a
run in which every external call succeeds reaches the status update,
raises `NameError` on `provsvc`, never reaches the resource downloads,
and its Worker reports `FailedUnknown`. -/
theorem gg_download_always_fails_before_resources_witness :
    ggWorldAllOk.readConfig = .ok ggCfgPlain
    ∧ ¬ (ggCfgPlain.hasUpdate ∧ ggCfgPlain.updateHasSchedule
        ∧ ggWorldAllOk.scheduleRet = -1)
    ∧ ggWorldAllOk.btHw = .ok false
    ∧ ¬ (ggCfgPlain.hasUpdateAPS ∧ ggWorldAllOk.wirelessRet = -1)
    ∧ ggCfgPlain.greengrass = some ggSubPlain
    ∧ (GGConfig.start_core_download ggWorldAllOk).error
        = some (.nameError "provsvc")
    ∧ (GGConfig.start_core_download
        ggWorldAllOk).reachedResourceDownload = false
    ∧ (provThreadRun true true
        (GGConfig.start_core_download ggWorldAllOk).toPhaseOutcome
        (.ok ())).result = .FailedUnknown :=
  ⟨rfl, by decide, rfl, by decide, rfl,
    (gg_download_always_fails_before_resources.2 ggWorldAllOk ggCfgPlain
      ggSubPlain false rfl (by decide) rfl (by decide) rfl).1,
    (gg_download_always_fails_before_resources.1 ggWorldAllOk).1,
    (gg_download_always_fails_before_resources.2 ggWorldAllOk ggCfgPlain
      ggSubPlain false rfl (by decide) rfl (by decide) rfl).2 (.ok ())⟩
